import Mathlib

/-!
Shallow embedding of the Quest 64 / Minish Cap autosplitter core
(`src/src/lib.rs`): the watcher pairs, the frame-count accumulator, the
run-start detection and the ordered milestone rule evaluator
(`should_split`), together with proofs of the specified properties.
-/

set_option maxHeartbeats 1000000

/-- Modelled from the spec: a ChangeCell view holding the previous (`old`)
and most recent (`current`) decoded value of one memory location (the
`asr::watcher::Pair` type used by the source, which is an external crate). -/
structure Pair (α : Type) where
  old : α
  current : α
deriving DecidableEq

/-- Modelled from the spec: `check_transition` is edge-triggered — true iff
the predicate holds for `current` and did NOT hold for `old`. -/
def Pair.check {α : Type} (p : Pair α) (f : α → Bool) : Bool :=
  !f p.old && f p.current

/- Inventory item bitmasks (`InventoryItem` bitflags in the source); the
same byte offset encodes four unrelated flags depending on the slot. -/
namespace InventoryItem

def PAUSE_MENU : Nat := 1 <<< 0
def SMITHS_SWORD : Nat := 1 <<< 2
def WHITE_SWORD : Nat := 1 <<< 4
def WHITE_SWORD2 : Nat := 1 <<< 6

def WHITE_SWORD3 : Nat := 1 <<< 0
def SWORD_LAMP : Nat := 1 <<< 2
def FOUR_SWORD : Nat := 1 <<< 4
def BOMBS : Nat := 1 <<< 6

def REMOTE_BOMBS : Nat := 1 <<< 0
def BOW : Nat := 1 <<< 2
def BOW2 : Nat := 1 <<< 4
def BOOMERANG : Nat := 1 <<< 6

def MAGICAL_BOOMERANG : Nat := 1 <<< 0
def SHIELD : Nat := 1 <<< 2
def MIRROR_SHIELD : Nat := 1 <<< 4
def FLAME_LANTERN : Nat := 1 <<< 6

def LAMP2 : Nat := 1 <<< 0
def GUST_JAR : Nat := 1 <<< 2
def CANE_OF_PACCI : Nat := 1 <<< 4
def MOLE_MITTS : Nat := 1 <<< 6

def ROCS_CAPE : Nat := 1 <<< 0
def PEGASUS_BOOTS : Nat := 1 <<< 2
def UNKNOWN : Nat := 1 <<< 4
def OCARINA : Nat := 1 <<< 6

end InventoryItem

/- The `Elements` bitflags. -/
namespace Elements

def EARTH : Nat := 1 <<< 0
def FIRE : Nat := 1 <<< 2
def WATER : Nat := 1 <<< 4
def WIND : Nat := 1 <<< 6

end Elements

/- The `PermanentEquipment` bitflags. -/
namespace PermanentEquipment

def GRIP_RING : Nat := 1 <<< 0
def POWER_BRACELETS : Nat := 1 <<< 2
def FLIPPERS : Nat := 1 <<< 4
def UNKNOWN : Nat := 1 <<< 6

end PermanentEquipment

/- Which inventory slot byte each logical item flag lives in
(`mod inventory_slot` in the source). -/
namespace inventory_slot

def PAUSE_MENU : Nat := 0
def SMITHS_SWORD : Nat := 0
def WHITE_SWORD : Nat := 0
def WHITE_SWORD2 : Nat := 0

def WHITE_SWORD3 : Nat := 1
def SWORD_LAMP : Nat := 1
def FOUR_SWORD : Nat := 1
def BOMBS : Nat := 1

def REMOTE_BOMBS : Nat := 2
def BOW : Nat := 2
def BOW2 : Nat := 2
def BOOMERANG : Nat := 2

def MAGICAL_BOOMERANG : Nat := 3
def SHIELD : Nat := 3
def MIRROR_SHIELD : Nat := 3
def FLAME_LANTERN : Nat := 3

def LAMP2 : Nat := 4
def GUST_JAR : Nat := 4
def CANE_OF_PACCI : Nat := 4
def MOLE_MITTS : Nat := 4

def ROCS_CAPE : Nat := 5
def PEGASUS_BOOTS : Nat := 5
def UNKNOWN : Nat := 5
def OCARINA : Nat := 5

end inventory_slot

/-- The decoded pause-menu snapshot: six inventory slot bytes, the
elemental medallion byte and the permanent equipment byte (the ten
unknown padding bytes carry no information and are omitted). -/
structure PauseMenu where
  inventory : List Nat
  elements : Nat
  permanent_equipment : Nat
deriving DecidableEq

/-- `PauseMenu::has_item`: bitflag containment test on the slot's byte. -/
def PauseMenu.has_item (menu : PauseMenu) (inventory_slot : Nat) (inventory_item : Nat) : Bool :=
  (menu.inventory.getD inventory_slot 0) &&& inventory_item == inventory_item

/-- Bitflag containment for the elements byte (`Elements::contains`). -/
def PauseMenu.elements_contains (menu : PauseMenu) (mask : Nat) : Bool :=
  menu.elements &&& mask == mask

/-- Bitflag containment for the permanent equipment byte
(`PermanentEquipment::contains`). -/
def PauseMenu.equipment_contains (menu : PauseMenu) (mask : Nat) : Bool :=
  menu.permanent_equipment &&& mask == mask

/-- `Scene`: a single byte identifying the current map/room. -/
structure Scene where
  val : Nat
deriving DecidableEq

namespace Scene

def TITLE_SCREEN : Scene := ⟨0⟩
def MINISH_WOODS : Scene := ⟨0⟩
def MINISH_VILLAGE : Scene := ⟨0x01⟩
def MARKET_PLACE : Scene := ⟨0x02⟩
def OVERWORLD : Scene := ⟨0x03⟩
def MT_CRENEL : Scene := ⟨0x06⟩
def COURTYARD : Scene := ⟨0x07⟩
def MELARIS_MINES : Scene := ⟨0x10⟩
def MARKET_PLACE_INTRO : Scene := ⟨0x15⟩
def FORTRESS_OF_WINDS : Scene := ⟨0x18⟩
def HOUSE : Scene := ⟨0x20⟩
def LINKS_HOUSE : Scene := ⟨0x22⟩
def DEEPWOOD_SHRINE : Scene := ⟨0x48⟩
def DEEPWOOD_SHRINE_BOSS : Scene := ⟨0x49⟩
def CAVE_OF_FLAMES : Scene := ⟨0x50⟩
def CAVE_OF_FLAMES_BOSS : Scene := ⟨0x51⟩
def FORTRESS_OF_WINDS_GREEN_FLOOR : Scene := ⟨0x58⟩
def TEMPLE_OF_DROPLETS : Scene := ⟨0x60⟩
def PALACE_OF_WINDS : Scene := ⟨0x70⟩
def HYRULE_CASTLE : Scene := ⟨0x80⟩
def DARK_HYRULE_CASTLE : Scene := ⟨0x88⟩
def VAATI3 : Scene := ⟨0x8B⟩

end Scene

/-- `Sprite`: 16-bit code identifying an active on-screen actor. -/
structure Sprite where
  val : Nat
deriving DecidableEq

def Sprite.RECEIVE_MINISH_CAP : Sprite := ⟨0x31C⟩

/-- The flat per-milestone boolean configuration (`Settings` in the
source); every toggle defaults to true. -/
structure Settings where
  get_smiths_sword : Bool
  receive_minish_cap : Bool
  enter_deepwood_shrine : Bool
  get_gust_jar : Bool
  enter_deepwood_shrine_boss_room : Bool
  get_earth_element : Bool
  enter_mt_crenel : Bool
  get_grip_ring : Bool
  enter_cave_of_flames : Bool
  get_cane_of_pacci : Bool
  enter_cave_of_flames_boss_room : Bool
  get_fire_element : Bool
  get_pegasus_boots : Bool
  get_bow : Bool
  enter_fortress_of_winds : Bool
  get_mole_mitts : Bool
  enter_fortress_of_winds_boss_room : Bool
  get_ocarina : Bool
  get_magical_boomerang : Bool
  get_power_bracelets : Bool
  get_flippers : Bool
  enter_temple_of_droplets : Bool
  get_flame_lantern : Bool
  get_water_element : Bool
  enter_palace_of_winds : Bool
  get_rocs_cape : Bool
  get_wind_element : Bool
  get_four_sword : Bool
  get_dhc_big_key : Bool
  defeat_vaati : Bool
deriving DecidableEq

/-- All toggles default to true (`#[default = true]` on every field). -/
def Settings.defaults : Settings :=
  ⟨true, true, true, true, true, true, true, true, true, true,
   true, true, true, true, true, true, true, true, true, true,
   true, true, true, true, true, true, true, true, true, true⟩

/-- The one-shot per-run booleans (`RunProgress` in the source). -/
structure RunProgress where
  smiths_sword : Bool
  deepwood_shrine : Bool
  deepwood_shrine_boss : Bool
  mt_crenel : Bool
  cave_of_flames : Bool
  cave_of_flames_boss : Bool
  fortress_of_winds : Bool
  fortress_of_winds_boss : Bool
  temple_of_droplets : Bool
  palace_of_winds : Bool
deriving DecidableEq

/-- `Default::default()` for `RunProgress`: all flags false. -/
def RunProgress.default : RunProgress :=
  ⟨false, false, false, false, false, false, false, false, false, false⟩

/-- The per-tick view `Vars`: the watcher pairs for every tracked field
plus the mutable run-scoped state (`accumulated_frame_count`,
`delayed_split`, `run_progress`). -/
structure Vars where
  pause_menu : Pair PauseMenu
  scene : Pair Scene
  dhc_big_key : Pair Nat
  vaati3_phases : Pair Int
  sprite : Pair Sprite
  frame_count : Pair Nat
  uix_position : Pair Int
  uiy_position : Pair Int
  link_position_y : Pair Nat
  visual_rupees : Pair Nat
  visual_hearts : Pair Nat
  visual_keys : Pair Nat
  tiger_scrolls : Pair Nat
  mysterious_shells : Pair Nat
  bombs : Pair Nat
  accumulated_frame_count : Int
  delayed_split : Option (String × Int)
  run_progress : RunProgress
deriving DecidableEq

/-- `Vars::frame_count()`: the logical elapsed frame count
`accumulated + narrow_current` (i64 arithmetic modelled as `Int`). -/
def Vars.frameCount (vars : Vars) : Int :=
  vars.accumulated_frame_count + (vars.frame_count.current : Int)

/-- One early-return block of `should_split`: `none` means the block's
condition did not hold and evaluation falls through to the next block;
`some (vars, out)` means the block returned from `should_split` with the
mutated state `vars` and the (possibly absent) split label `out`. -/
abbrev SplitRule := Vars → Settings → Option (Vars × Option String)

/-- Step 0 of `should_split`: if a delayed split is pending and due
(`frame_count() >= time_stamp`), clear it and return its label. -/
def delayedSplitRule : SplitRule := fun vars _ =>
  match vars.delayed_split with
  | some (message, time_stamp) =>
    if vars.frameCount ≥ time_stamp then
      some ({ vars with delayed_split := none }, some message)
    else
      none
  | none => none

/-- The "Get Smith's Sword" block, which doubles as a save-load detector:
on the item edge, a set `run_progress.smiths_sword` suppresses the split;
otherwise the flag is seeded and the label returned via `then_some`. -/
def getSmithsSwordRule : SplitRule := fun vars settings =>
  if vars.pause_menu.check
      (fun menu => menu.has_item inventory_slot.SMITHS_SWORD InventoryItem.SMITHS_SWORD) then
    if vars.run_progress.smiths_sword then
      some (vars, none)
    else
      some ({ vars with run_progress := { vars.run_progress with smiths_sword := true } },
            if settings.get_smiths_sword then some "Get Smith\x27s Sword" else none)
  else none

/-- The "Receive Minish Cap" block: on the sprite edge in the Minish Woods
scene it arms the delayed split for `frame_count() + 20` and returns no
label this tick. -/
def receiveMinishCapRule : SplitRule := fun vars settings =>
  if vars.sprite.check (fun sprite => sprite == Sprite.RECEIVE_MINISH_CAP)
      && vars.scene.current == Scene.MINISH_WOODS
      && settings.receive_minish_cap then
    some ({ vars with delayed_split := some ("Receive Minish Cap", vars.frameCount + 20) }, none)
  else none

/-- The "Enter Deepwood Shrine" block (one-shot area entry). -/
def enterDeepwoodShrineRule : SplitRule := fun vars settings =>
  if !vars.run_progress.deepwood_shrine
      && vars.scene.current == Scene.DEEPWOOD_SHRINE
      && settings.enter_deepwood_shrine then
    some ({ vars with run_progress := { vars.run_progress with deepwood_shrine := true } },
          some "Enter Deepwood Shrine")
  else none

/-- The "Get Gust Jar" block (edge-triggered item pickup). -/
def getGustJarRule : SplitRule := fun vars settings =>
  if vars.pause_menu.check
      (fun menu => menu.has_item inventory_slot.GUST_JAR InventoryItem.GUST_JAR)
      && settings.get_gust_jar then
    some (vars, some "Get Gust Jar")
  else none

/-- The "Enter Deepwood Shrine Boss Room" block (one-shot area entry). -/
def enterDeepwoodShrineBossRule : SplitRule := fun vars settings =>
  if !vars.run_progress.deepwood_shrine_boss
      && vars.scene.current == Scene.DEEPWOOD_SHRINE_BOSS
      && settings.enter_deepwood_shrine_boss_room then
    some ({ vars with run_progress := { vars.run_progress with deepwood_shrine_boss := true } },
          some "Enter Deepwood Shrine Boss Room")
  else none

/-- The "Get Earth Element" block. -/
def getEarthElementRule : SplitRule := fun vars settings =>
  if vars.pause_menu.check (fun menu => menu.elements_contains Elements.EARTH)
      && settings.get_earth_element then
    some (vars, some "Get Earth Element")
  else none

/-- The "Enter Mt. Crenel" block (one-shot area entry). -/
def enterMtCrenelRule : SplitRule := fun vars settings =>
  if !vars.run_progress.mt_crenel
      && vars.scene.current == Scene.MT_CRENEL
      && settings.enter_mt_crenel then
    some ({ vars with run_progress := { vars.run_progress with mt_crenel := true } },
          some "Enter Mt. Crenel")
  else none

/-- The "Get Grip Ring" block. -/
def getGripRingRule : SplitRule := fun vars settings =>
  if vars.pause_menu.check (fun menu => menu.equipment_contains PermanentEquipment.GRIP_RING)
      && settings.get_grip_ring then
    some (vars, some "Get Grip Ring")
  else none

/-- The "Enter Cave of Flames" block (one-shot area entry). -/
def enterCaveOfFlamesRule : SplitRule := fun vars settings =>
  if !vars.run_progress.cave_of_flames
      && vars.scene.current == Scene.CAVE_OF_FLAMES
      && settings.enter_cave_of_flames then
    some ({ vars with run_progress := { vars.run_progress with cave_of_flames := true } },
          some "Enter Cave of Flames")
  else none

/-- The "Get Cane of Pacci" block. -/
def getCaneOfPacciRule : SplitRule := fun vars settings =>
  if vars.pause_menu.check
      (fun menu => menu.has_item inventory_slot.CANE_OF_PACCI InventoryItem.CANE_OF_PACCI)
      && settings.get_cane_of_pacci then
    some (vars, some "Get Cane of Pacci")
  else none

/-- The "Enter Cave of Flames Boss Room" block (one-shot area entry). -/
def enterCaveOfFlamesBossRule : SplitRule := fun vars settings =>
  if !vars.run_progress.cave_of_flames_boss
      && vars.scene.current == Scene.CAVE_OF_FLAMES_BOSS
      && settings.enter_cave_of_flames_boss_room then
    some ({ vars with run_progress := { vars.run_progress with cave_of_flames_boss := true } },
          some "Enter Cave of Flames Boss Room")
  else none

/-- The "Get Fire Element" block. -/
def getFireElementRule : SplitRule := fun vars settings =>
  if vars.pause_menu.check (fun menu => menu.elements_contains Elements.FIRE)
      && settings.get_fire_element then
    some (vars, some "Get Fire Element")
  else none

/-- The "Get Pegasus Boots" block. -/
def getPegasusBootsRule : SplitRule := fun vars settings =>
  if vars.pause_menu.check
      (fun menu => menu.has_item inventory_slot.PEGASUS_BOOTS InventoryItem.PEGASUS_BOOTS)
      && settings.get_pegasus_boots then
    some (vars, some "Get Pegasus Boots")
  else none

/-- The "Get Bow" block. -/
def getBowRule : SplitRule := fun vars settings =>
  if vars.pause_menu.check
      (fun menu => menu.has_item inventory_slot.BOW InventoryItem.BOW)
      && settings.get_bow then
    some (vars, some "Get Bow")
  else none

/-- The "Enter Fortress of Winds" block (one-shot area entry). -/
def enterFortressOfWindsRule : SplitRule := fun vars settings =>
  if !vars.run_progress.fortress_of_winds
      && vars.scene.current == Scene.FORTRESS_OF_WINDS
      && settings.enter_fortress_of_winds then
    some ({ vars with run_progress := { vars.run_progress with fortress_of_winds := true } },
          some "Enter Fortress of Winds")
  else none

/-- The "Get Mole Mitts" block. -/
def getMoleMittsRule : SplitRule := fun vars settings =>
  if vars.pause_menu.check
      (fun menu => menu.has_item inventory_slot.MOLE_MITTS InventoryItem.MOLE_MITTS)
      && settings.get_mole_mitts then
    some (vars, some "Get Mole Mitts")
  else none

/-- The "Enter Fortress of Winds Boss Room" block: one-shot area entry
with the additional `link_position_y <= 1015` position gate. -/
def enterFortressOfWindsBossRule : SplitRule := fun vars settings =>
  if !vars.run_progress.fortress_of_winds_boss
      && vars.scene.current == Scene.FORTRESS_OF_WINDS_GREEN_FLOOR
      && vars.link_position_y.current ≤ 1015
      && settings.enter_fortress_of_winds_boss_room then
    some ({ vars with run_progress := { vars.run_progress with fortress_of_winds_boss := true } },
          some "Enter Fortress of Winds Boss Room")
  else none

/-- The "Get Ocarina" block. -/
def getOcarinaRule : SplitRule := fun vars settings =>
  if vars.pause_menu.check
      (fun menu => menu.has_item inventory_slot.OCARINA InventoryItem.OCARINA)
      && settings.get_ocarina then
    some (vars, some "Get Ocarina")
  else none

/-- The "Get Magical Boomerang" block. -/
def getMagicalBoomerangRule : SplitRule := fun vars settings =>
  if vars.pause_menu.check
      (fun menu => menu.has_item inventory_slot.MAGICAL_BOOMERANG InventoryItem.MAGICAL_BOOMERANG)
      && settings.get_magical_boomerang then
    some (vars, some "Get Magical Boomerang")
  else none

/-- The "Get Power Bracelets" block. -/
def getPowerBraceletsRule : SplitRule := fun vars settings =>
  if vars.pause_menu.check
      (fun menu => menu.equipment_contains PermanentEquipment.POWER_BRACELETS)
      && settings.get_power_bracelets then
    some (vars, some "Get Power Bracelets")
  else none

/-- The "Get Flippers" block. -/
def getFlippersRule : SplitRule := fun vars settings =>
  if vars.pause_menu.check
      (fun menu => menu.equipment_contains PermanentEquipment.FLIPPERS)
      && settings.get_flippers then
    some (vars, some "Get Flippers")
  else none

/-- The "Enter Temple of Droplets" block (one-shot area entry). -/
def enterTempleOfDropletsRule : SplitRule := fun vars settings =>
  if !vars.run_progress.temple_of_droplets
      && vars.scene.current == Scene.TEMPLE_OF_DROPLETS
      && settings.enter_temple_of_droplets then
    some ({ vars with run_progress := { vars.run_progress with temple_of_droplets := true } },
          some "Enter Temple of Droplets")
  else none

/-- The "Get Flame Lantern" block. -/
def getFlameLanternRule : SplitRule := fun vars settings =>
  if vars.pause_menu.check
      (fun menu => menu.has_item inventory_slot.FLAME_LANTERN InventoryItem.FLAME_LANTERN)
      && settings.get_flame_lantern then
    some (vars, some "Get Flame Lantern")
  else none

/-- The "Get Water Element" block. -/
def getWaterElementRule : SplitRule := fun vars settings =>
  if vars.pause_menu.check (fun menu => menu.elements_contains Elements.WATER)
      && settings.get_water_element then
    some (vars, some "Get Water Element")
  else none

/-- The "Enter Palace of Winds" block (one-shot area entry). -/
def enterPalaceOfWindsRule : SplitRule := fun vars settings =>
  if !vars.run_progress.palace_of_winds
      && vars.scene.current == Scene.PALACE_OF_WINDS
      && settings.enter_palace_of_winds then
    some ({ vars with run_progress := { vars.run_progress with palace_of_winds := true } },
          some "Enter Palace of Winds")
  else none

/-- The "Get Roc's Cape" block. -/
def getRocsCapeRule : SplitRule := fun vars settings =>
  if vars.pause_menu.check
      (fun menu => menu.has_item inventory_slot.ROCS_CAPE InventoryItem.ROCS_CAPE)
      && settings.get_rocs_cape then
    some (vars, some "Get Roc\x27s Cape")
  else none

/-- The "Get Wind Element" block. -/
def getWindElementRule : SplitRule := fun vars settings =>
  if vars.pause_menu.check (fun menu => menu.elements_contains Elements.WIND)
      && settings.get_wind_element then
    some (vars, some "Get Wind Element")
  else none

/-- The "Get Four Sword" block: on the item edge it arms the delayed split
for `frame_count() + 244` and returns no label this tick. -/
def getFourSwordRule : SplitRule := fun vars settings =>
  if vars.pause_menu.check
      (fun menu => menu.has_item inventory_slot.FOUR_SWORD InventoryItem.FOUR_SWORD)
      && settings.get_four_sword then
    some ({ vars with delayed_split := some ("Get Four Sword", vars.frameCount + 244) }, none)
  else none

/-- The "Get DHC Big Key" block: edge on bit 2 of the key flags word. -/
def getDhcBigKeyRule : SplitRule := fun vars settings =>
  if vars.dhc_big_key.check (fun v => v &&& 4 != 0) && settings.get_dhc_big_key then
    some (vars, some "Get DHC Big Key")
  else none

/-- The "Defeat Vaati" block: the phase counter falls from exactly 1 to
exactly 0 while the scene is the final boss scene. -/
def defeatVaatiRule : SplitRule := fun vars settings =>
  if vars.scene.current == Scene.VAATI3
      && vars.vaati3_phases.old == 1
      && vars.vaati3_phases.current == 0
      && settings.defeat_vaati then
    some (vars, some "Defeat Vaati")
  else none

/-- The blocks of `should_split` in their exact source order (the delayed
split check first, then the milestone rules top to bottom). -/
def splitRules : List SplitRule :=
  [delayedSplitRule, getSmithsSwordRule, receiveMinishCapRule, enterDeepwoodShrineRule,
   getGustJarRule, enterDeepwoodShrineBossRule, getEarthElementRule, enterMtCrenelRule,
   getGripRingRule, enterCaveOfFlamesRule, getCaneOfPacciRule, enterCaveOfFlamesBossRule,
   getFireElementRule, getPegasusBootsRule, getBowRule, enterFortressOfWindsRule,
   getMoleMittsRule, enterFortressOfWindsBossRule, getOcarinaRule, getMagicalBoomerangRule,
   getPowerBraceletsRule, getFlippersRule, enterTempleOfDropletsRule, getFlameLanternRule,
   getWaterElementRule, enterPalaceOfWindsRule, getRocsCapeRule, getWindElementRule,
   getFourSwordRule, getDhcBigKeyRule, defeatVaatiRule]

/-- Sequential early-return evaluation: the first rule that produces an
outcome determines the result; a rule that produces none leaves the state
untouched and evaluation falls through. -/
def runRules : List SplitRule → Vars → Settings → Vars × Option String
  | [], vars, _ => (vars, none)
  | r :: rs, vars, settings =>
    match r vars settings with
    | some result => result
    | none => runRules rs vars settings

/-- `should_split`: evaluate the blocks in source order; returns the
mutated state and at most one split label. -/
def should_split (vars : Vars) (settings : Settings) : Vars × Option String :=
  runRules splitRules vars settings

/-- The external timer's run state (`asr::timer::TimerState`). -/
inductive TimerState where
  | NotRunning
  | Running
  | Paused
  | Ended
deriving DecidableEq

/-- The calls the tick makes on the external timer collaborator. -/
structure TickOutput where
  timerVars : Option (List (String × String))
  started : Bool
  pausedGameTime : Bool
  gameTime : Option Int
  split : Option String
deriving DecidableEq

/-- A tick that makes no timer calls at all. -/
def TickOutput.none : TickOutput :=
  ⟨Option.none, false, false, Option.none, Option.none⟩

/-- The frame-clock accumulator step from the Running/Paused branch of
`update`: if the narrow 16-bit counter decreased, a wrap happened, so add
`old + 1` to the accumulator. -/
def frameClockUpdate (accumulated : Int) (fc : Pair Nat) : Int :=
  if fc.current < fc.old then accumulated + (fc.old : Int) + 1 else accumulated

/-- The hearts display string built in `update` (¼ fractions, with the
leading 0 skipped for values 1 to 3). -/
def heartsString (hearts : Nat) : String :=
  (if !(1 ≤ hearts && hearts ≤ 3) then toString (hearts / 4) else "")
    ++ (match hearts % 4 with
        | 1 => "¼"
        | 2 => "½"
        | 3 => "¾"
        | _ => "")

/-- The informational timer variables reported every tick with data
(the six `timer::set_variable` calls in `update`). -/
def timerVariables (vars : Vars) : List (String × String) :=
  [("Hearts", heartsString vars.visual_hearts.current),
   ("Rupees", toString vars.visual_rupees.current),
   ("Keys", toString vars.visual_keys.current),
   ("Tiger Scrolls", toString vars.tiger_scrolls.current),
   ("Mysterious Shells", toString vars.mysterious_shells.current),
   ("Bombs", toString vars.bombs.current)]

/-- The run-start trigger condition checked while the timer is not
running: cursor X currently 24, cursor Y previously exactly 144 and now
greater than 144. -/
def runStartTrigger (vars : Vars) : Bool :=
  vars.uix_position.current == 24
    && vars.uiy_position.old == 144
    && vars.uiy_position.current > 144

/-- The timer-state match in `update`, applied after the watchers updated:
run-start detection when NotRunning, frame clock + game time + milestone
evaluation when Running or Paused, nothing otherwise. The returned
`TickOutput` leaves `timerVars` empty because the variable reporting
happens before this match (see `tick`). -/
def updateTick (ts : TimerState) (vars : Vars) (settings : Settings) : Vars × TickOutput :=
  match ts with
  | TimerState.NotRunning =>
    if runStartTrigger vars then
      ({ vars with
          accumulated_frame_count := -(vars.frame_count.current : Int),
          run_progress := RunProgress.default },
       { TickOutput.none with started := true, pausedGameTime := true })
    else
      (vars, TickOutput.none)
  | TimerState.Running | TimerState.Paused =>
    let vars :=
      { vars with
          accumulated_frame_count := frameClockUpdate vars.accumulated_frame_count vars.frame_count }
    let gameTime := vars.frameCount
    let result := should_split vars settings
    (result.1, { TickOutput.none with gameTime := some gameTime, split := result.2 })
  | TimerState.Ended => (vars, TickOutput.none)

/-- Modelled from the spec: one watcher update from a raw read
(`asr::watcher::Watcher::update`, an external crate). On a successful
read the current value shifts into `old` and the fresh value becomes
`current` (both equal on the first read); on a failed read nothing is
updated and no observation is returned. -/
def watcherStep {α : Type} (w : Option (Pair α)) (read : Option α) :
    Option (Pair α) × Option (Pair α) :=
  match w, read with
  | w, none => (w, none)
  | some p, some v => (some ⟨p.current, v⟩, some ⟨p.current, v⟩)
  | none, some v => (some ⟨v, v⟩, some ⟨v, v⟩)

/-- The process-scoped `Game` state: one watcher per tracked address plus
the run-scoped mutable state. -/
structure Game where
  pause_menu : Option (Pair PauseMenu)
  scene : Option (Pair Scene)
  dhc_big_key : Option (Pair Nat)
  vaati3_phases : Option (Pair Int)
  sprite : Option (Pair Sprite)
  frame_count : Option (Pair Nat)
  uix_position : Option (Pair Int)
  uiy_position : Option (Pair Int)
  link_position_y : Option (Pair Nat)
  visual_rupees : Option (Pair Nat)
  visual_hearts : Option (Pair Nat)
  visual_keys : Option (Pair Nat)
  tiger_scrolls : Option (Pair Nat)
  mysterious_shells : Option (Pair Nat)
  bombs : Option (Pair Nat)
  accumulated_frame_count : Int
  delayed_split : Option (String × Int)
  run_progress : RunProgress
deriving DecidableEq

/-- `Game::new_ntscj`: fresh watchers, zero accumulator, no pending
delayed split, all progress flags false. -/
def Game.new_ntscj : Game :=
  ⟨none, none, none, none, none, none, none, none, none, none, none,
   none, none, none, none, 0, none, RunProgress.default⟩

/-- The outcome of this tick's fifteen reads of the emulator's memory
(`none` for a field whose read failed). -/
structure Reads where
  pause_menu : Option PauseMenu
  scene : Option Scene
  dhc_big_key : Option Nat
  vaati3_phases : Option Int
  sprite : Option Sprite
  frame_count : Option Nat
  uix_position : Option Int
  uiy_position : Option Int
  link_position_y : Option Nat
  visual_rupees : Option Nat
  visual_hearts : Option Nat
  visual_keys : Option Nat
  tiger_scrolls : Option Nat
  mysterious_shells : Option Nat
  bombs : Option Nat
deriving DecidableEq

/-- `Game::update_vars`: update every watcher in declaration order, with
the `?` operator aborting at the first field whose read failed. Watchers
before the failing field keep their fresh update; the tick yields no
`Vars` in that case. -/
def Game.update_vars (game : Game) (reads : Reads) : Game × Option Vars :=
  let (w, p) := watcherStep game.pause_menu reads.pause_menu
  let game := { game with pause_menu := w }
  match p with
  | none => (game, none)
  | some pause_menu =>
  let (w, p) := watcherStep game.scene reads.scene
  let game := { game with scene := w }
  match p with
  | none => (game, none)
  | some scene =>
  let (w, p) := watcherStep game.dhc_big_key reads.dhc_big_key
  let game := { game with dhc_big_key := w }
  match p with
  | none => (game, none)
  | some dhc_big_key =>
  let (w, p) := watcherStep game.vaati3_phases reads.vaati3_phases
  let game := { game with vaati3_phases := w }
  match p with
  | none => (game, none)
  | some vaati3_phases =>
  let (w, p) := watcherStep game.sprite reads.sprite
  let game := { game with sprite := w }
  match p with
  | none => (game, none)
  | some sprite =>
  let (w, p) := watcherStep game.frame_count reads.frame_count
  let game := { game with frame_count := w }
  match p with
  | none => (game, none)
  | some frame_count =>
  let (w, p) := watcherStep game.uix_position reads.uix_position
  let game := { game with uix_position := w }
  match p with
  | none => (game, none)
  | some uix_position =>
  let (w, p) := watcherStep game.uiy_position reads.uiy_position
  let game := { game with uiy_position := w }
  match p with
  | none => (game, none)
  | some uiy_position =>
  let (w, p) := watcherStep game.link_position_y reads.link_position_y
  let game := { game with link_position_y := w }
  match p with
  | none => (game, none)
  | some link_position_y =>
  let (w, p) := watcherStep game.visual_rupees reads.visual_rupees
  let game := { game with visual_rupees := w }
  match p with
  | none => (game, none)
  | some visual_rupees =>
  let (w, p) := watcherStep game.visual_hearts reads.visual_hearts
  let game := { game with visual_hearts := w }
  match p with
  | none => (game, none)
  | some visual_hearts =>
  let (w, p) := watcherStep game.visual_keys reads.visual_keys
  let game := { game with visual_keys := w }
  match p with
  | none => (game, none)
  | some visual_keys =>
  let (w, p) := watcherStep game.tiger_scrolls reads.tiger_scrolls
  let game := { game with tiger_scrolls := w }
  match p with
  | none => (game, none)
  | some tiger_scrolls =>
  let (w, p) := watcherStep game.mysterious_shells reads.mysterious_shells
  let game := { game with mysterious_shells := w }
  match p with
  | none => (game, none)
  | some mysterious_shells =>
  let (w, p) := watcherStep game.bombs reads.bombs
  let game := { game with bombs := w }
  match p with
  | none => (game, none)
  | some bombs =>
    (game,
     some ⟨pause_menu, scene, dhc_big_key, vaati3_phases, sprite, frame_count,
           uix_position, uiy_position, link_position_y, visual_rupees, visual_hearts,
           visual_keys, tiger_scrolls, mysterious_shells, bombs,
           game.accumulated_frame_count, game.delayed_split, game.run_progress⟩)

/-- Write the mutable run-scoped parts of a `Vars` back into the game
state (the source mutates them in place through `&mut` references). -/
def Game.absorb (game : Game) (vars : Vars) : Game :=
  { game with
      accumulated_frame_count := vars.accumulated_frame_count,
      delayed_split := vars.delayed_split,
      run_progress := vars.run_progress }

/-- One full polling tick of `update` for an attached game: update the
watchers; if any read failed, do nothing else this tick; otherwise report
the informational variables and run the timer-state match. -/
def tick (ts : TimerState) (game : Game) (reads : Reads) (settings : Settings) :
    Game × TickOutput :=
  match game.update_vars reads with
  | (game, none) => (game, TickOutput.none)
  | (game, some vars) =>
    let reported := timerVariables vars
    let (vars, out) := updateTick ts vars settings
    (game.absorb vars, { out with timerVars := some reported })

/-- The per-tick external observations (the fifteen watcher pairs) used
to drive a multi-tick trace; the run-scoped mutable state is threaded
separately. -/
structure Obs where
  pause_menu : Pair PauseMenu
  scene : Pair Scene
  dhc_big_key : Pair Nat
  vaati3_phases : Pair Int
  sprite : Pair Sprite
  frame_count : Pair Nat
  uix_position : Pair Int
  uiy_position : Pair Int
  link_position_y : Pair Nat
  visual_rupees : Pair Nat
  visual_hearts : Pair Nat
  visual_keys : Pair Nat
  tiger_scrolls : Pair Nat
  mysterious_shells : Pair Nat
  bombs : Pair Nat
deriving DecidableEq

/-- Assemble the per-tick `Vars` view from the observations and the
run-scoped mutable state. -/
def mkVars (o : Obs) (acc : Int) (ds : Option (String × Int)) (rp : RunProgress) : Vars :=
  ⟨o.pause_menu, o.scene, o.dhc_big_key, o.vaati3_phases, o.sprite, o.frame_count,
   o.uix_position, o.uiy_position, o.link_position_y, o.visual_rupees, o.visual_hearts,
   o.visual_keys, o.tiger_scrolls, o.mysterious_shells, o.bombs, acc, ds, rp⟩

/-- The split labels emitted along a sequence of Running ticks: each tick
runs the Running branch of `update` (frame clock plus `should_split`) and
threads the mutated run state into the next tick. -/
def splitTrace (settings : Settings) :
    Int → Option (String × Int) → RunProgress → List Obs → List (Option String)
  | _, _, _, [] => []
  | acc, ds, rp, o :: os =>
    let result := updateTick TimerState.Running (mkVars o acc ds rp) settings
    result.2.split ::
      splitTrace settings result.1.accumulated_frame_count result.1.delayed_split
        result.1.run_progress os

/-- The pending delayed split, if any, does not carry the given label. -/
def dsOkay (ds : Option (String × Int)) (label : String) : Bool :=
  match ds with
  | some p => p.1 != label
  | none => true

/-- The nine one-shot area-entry guards of `RunProgress`, indexed in rule
order (the Smith's Sword save-load flag is not an area guard). -/
def areaGuard : Nat → RunProgress → Bool
  | 0, rp => rp.deepwood_shrine
  | 1, rp => rp.deepwood_shrine_boss
  | 2, rp => rp.mt_crenel
  | 3, rp => rp.cave_of_flames
  | 4, rp => rp.cave_of_flames_boss
  | 5, rp => rp.fortress_of_winds
  | 6, rp => rp.fortress_of_winds_boss
  | 7, rp => rp.temple_of_droplets
  | 8, rp => rp.palace_of_winds
  | _, _ => false

/-- The labels of the nine area-entry rules, in the same order as
`areaGuard`. -/
def areaLabel : Nat → String
  | 0 => "Enter Deepwood Shrine"
  | 1 => "Enter Deepwood Shrine Boss Room"
  | 2 => "Enter Mt. Crenel"
  | 3 => "Enter Cave of Flames"
  | 4 => "Enter Cave of Flames Boss Room"
  | 5 => "Enter Fortress of Winds"
  | 6 => "Enter Fortress of Winds Boss Room"
  | 7 => "Enter Temple of Droplets"
  | 8 => "Enter Palace of Winds"
  | _ => ""

/-- The configuration toggle guarding each immediately-returned label: a
label-to-toggle map covering exactly the labels that `should_split`
returns directly from a milestone block (the two delayed labels,
"Receive Minish Cap" and "Get Four Sword", are armed rather than
returned by their blocks, so they are absent here). -/
def immediateEnabled (label : String) (settings : Settings) : Bool :=
  match label with
  | "Get Smith\x27s Sword" => settings.get_smiths_sword
  | "Enter Deepwood Shrine" => settings.enter_deepwood_shrine
  | "Get Gust Jar" => settings.get_gust_jar
  | "Enter Deepwood Shrine Boss Room" => settings.enter_deepwood_shrine_boss_room
  | "Get Earth Element" => settings.get_earth_element
  | "Enter Mt. Crenel" => settings.enter_mt_crenel
  | "Get Grip Ring" => settings.get_grip_ring
  | "Enter Cave of Flames" => settings.enter_cave_of_flames
  | "Get Cane of Pacci" => settings.get_cane_of_pacci
  | "Enter Cave of Flames Boss Room" => settings.enter_cave_of_flames_boss_room
  | "Get Fire Element" => settings.get_fire_element
  | "Get Pegasus Boots" => settings.get_pegasus_boots
  | "Get Bow" => settings.get_bow
  | "Enter Fortress of Winds" => settings.enter_fortress_of_winds
  | "Get Mole Mitts" => settings.get_mole_mitts
  | "Enter Fortress of Winds Boss Room" => settings.enter_fortress_of_winds_boss_room
  | "Get Ocarina" => settings.get_ocarina
  | "Get Magical Boomerang" => settings.get_magical_boomerang
  | "Get Power Bracelets" => settings.get_power_bracelets
  | "Get Flippers" => settings.get_flippers
  | "Enter Temple of Droplets" => settings.enter_temple_of_droplets
  | "Get Flame Lantern" => settings.get_flame_lantern
  | "Get Water Element" => settings.get_water_element
  | "Enter Palace of Winds" => settings.enter_palace_of_winds
  | "Get Roc\x27s Cape" => settings.get_rocs_cape
  | "Get Wind Element" => settings.get_wind_element
  | "Get DHC Big Key" => settings.get_dhc_big_key
  | "Defeat Vaati" => settings.defeat_vaati
  | _ => false

/-- The toggle-guarded blocks other than the Smith's Sword block, each
paired with its configuration toggle (the delayed-split check has no
toggle, and the Smith's Sword block checks its toggle only after
returning). -/
def toggledRules : List (SplitRule × (Settings → Bool)) :=
  [(receiveMinishCapRule, fun settings => settings.receive_minish_cap),
   (enterDeepwoodShrineRule, fun settings => settings.enter_deepwood_shrine),
   (getGustJarRule, fun settings => settings.get_gust_jar),
   (enterDeepwoodShrineBossRule, fun settings => settings.enter_deepwood_shrine_boss_room),
   (getEarthElementRule, fun settings => settings.get_earth_element),
   (enterMtCrenelRule, fun settings => settings.enter_mt_crenel),
   (getGripRingRule, fun settings => settings.get_grip_ring),
   (enterCaveOfFlamesRule, fun settings => settings.enter_cave_of_flames),
   (getCaneOfPacciRule, fun settings => settings.get_cane_of_pacci),
   (enterCaveOfFlamesBossRule, fun settings => settings.enter_cave_of_flames_boss_room),
   (getFireElementRule, fun settings => settings.get_fire_element),
   (getPegasusBootsRule, fun settings => settings.get_pegasus_boots),
   (getBowRule, fun settings => settings.get_bow),
   (enterFortressOfWindsRule, fun settings => settings.enter_fortress_of_winds),
   (getMoleMittsRule, fun settings => settings.get_mole_mitts),
   (enterFortressOfWindsBossRule, fun settings => settings.enter_fortress_of_winds_boss_room),
   (getOcarinaRule, fun settings => settings.get_ocarina),
   (getMagicalBoomerangRule, fun settings => settings.get_magical_boomerang),
   (getPowerBraceletsRule, fun settings => settings.get_power_bracelets),
   (getFlippersRule, fun settings => settings.get_flippers),
   (enterTempleOfDropletsRule, fun settings => settings.enter_temple_of_droplets),
   (getFlameLanternRule, fun settings => settings.get_flame_lantern),
   (getWaterElementRule, fun settings => settings.get_water_element),
   (enterPalaceOfWindsRule, fun settings => settings.enter_palace_of_winds),
   (getRocsCapeRule, fun settings => settings.get_rocs_cape),
   (getWindElementRule, fun settings => settings.get_wind_element),
   (getFourSwordRule, fun settings => settings.get_four_sword),
   (getDhcBigKeyRule, fun settings => settings.get_dhc_big_key),
   (defeatVaatiRule, fun settings => settings.defeat_vaati)]

/-- The logical frame counts produced by consecutive Running-tick frame
clock updates, feeding the narrow counter readings in order (the
watcher shifts each reading into `old` before the next tick). -/
def frameClockTicks (accumulated : Int) (prev : Nat) : List Nat → List Int
  | [] => []
  | v :: vs =>
    let acc2 := frameClockUpdate accumulated ⟨prev, v⟩
    (acc2 + (v : Int)) :: frameClockTicks acc2 v vs

/-- An empty pause menu byte pattern. -/
def pmNone : PauseMenu := ⟨[0, 0, 0, 0, 0, 0], 0, 0⟩

/-- A pause menu with only the Gust Jar flag (slot 4, bit 2). -/
def pmGustJar : PauseMenu := ⟨[0, 0, 0, 0, 4, 0], 0, 0⟩

/-- A pause menu with only the Smith's Sword flag (slot 0, bit 2). -/
def pmSword : PauseMenu := ⟨[4, 0, 0, 0, 0, 0], 0, 0⟩

/-- A pause menu with only the Four Sword flag (slot 1, bit 4). -/
def pmFourSword : PauseMenu := ⟨[0, 16, 0, 0, 0, 0], 0, 0⟩

/-- A neutral concrete tick state used by the concrete instances: no
edges, scene Overworld, frame counter 100 to 101, no pending delayed
split, fresh progress. -/
def sampleVars : Vars :=
  { pause_menu := ⟨pmNone, pmNone⟩
    scene := ⟨Scene.OVERWORLD, Scene.OVERWORLD⟩
    dhc_big_key := ⟨0, 0⟩
    vaati3_phases := ⟨0, 0⟩
    sprite := ⟨⟨0⟩, ⟨0⟩⟩
    frame_count := ⟨100, 101⟩
    uix_position := ⟨0, 0⟩
    uiy_position := ⟨0, 0⟩
    link_position_y := ⟨0, 0⟩
    visual_rupees := ⟨0, 0⟩
    visual_hearts := ⟨0, 0⟩
    visual_keys := ⟨0, 0⟩
    tiger_scrolls := ⟨0, 0⟩
    mysterious_shells := ⟨0, 0⟩
    bombs := ⟨0, 0⟩
    accumulated_frame_count := 0
    delayed_split := none
    run_progress := RunProgress.default }

/-- A tick state on which both the Deepwood Shrine entry condition and
the Gust Jar pickup edge hold simultaneously. -/
def dualVars : Vars :=
  { sampleVars with
    pause_menu := ⟨pmNone, pmGustJar⟩
    scene := ⟨Scene.OVERWORLD, Scene.DEEPWOOD_SHRINE⟩ }

/-- The run-start trigger tick state with a stale pending delayed split
from the previous run. -/
def resetVars : Vars :=
  { sampleVars with
    uix_position := ⟨24, 24⟩
    uiy_position := ⟨144, 150⟩
    delayed_split := some ("Get Four Sword", 1000)
    run_progress :=
      { RunProgress.default with deepwood_shrine := true, smiths_sword := true } }

/-- A Running tick of the next run whose logical frame count has reached
the stale pending delayed split's due frame. -/
def staleDueVars : Vars :=
  { sampleVars with
    accumulated_frame_count := 899
    delayed_split := some ("Get Four Sword", 1000) }

/-- An observation tick whose scene reads Deepwood Shrine. -/
def deepwoodObs : Obs :=
  { pause_menu := ⟨pmNone, pmNone⟩
    scene := ⟨Scene.DEEPWOOD_SHRINE, Scene.DEEPWOOD_SHRINE⟩
    dhc_big_key := ⟨0, 0⟩
    vaati3_phases := ⟨0, 0⟩
    sprite := ⟨⟨0⟩, ⟨0⟩⟩
    frame_count := ⟨100, 101⟩
    uix_position := ⟨0, 0⟩
    uiy_position := ⟨0, 0⟩
    link_position_y := ⟨0, 0⟩
    visual_rupees := ⟨0, 0⟩
    visual_hearts := ⟨0, 0⟩
    visual_keys := ⟨0, 0⟩
    tiger_scrolls := ⟨0, 0⟩
    mysterious_shells := ⟨0, 0⟩
    bombs := ⟨0, 0⟩ }

/-- A tick state with the Smith's Sword pickup edge and fresh progress. -/
def swordEdgeVars : Vars :=
  { sampleVars with pause_menu := ⟨pmNone, pmSword⟩ }

/-- The sword edge while the Deepwood Shrine entry condition also holds
(used with the Smith's Sword toggle disabled). -/
def swordEdgeDeepwoodVars : Vars :=
  { sampleVars with
    pause_menu := ⟨pmNone, pmSword⟩
    scene := ⟨Scene.OVERWORLD, Scene.DEEPWOOD_SHRINE⟩ }

/-- A tick state with the Four Sword pickup edge and a pending, not yet
due, delayed split. -/
def fourSwordEdgeVars : Vars :=
  { sampleVars with
    scene := ⟨Scene.LINKS_HOUSE, Scene.LINKS_HOUSE⟩
    pause_menu := ⟨pmNone, pmFourSword⟩
    delayed_split := some ("Receive Minish Cap", 500) }

/-- A process state whose fifteen watchers all hold a neutral pair, with
the frame watcher one tick before a counter wrap. -/
def sampleGame : Game :=
  { pause_menu := some ⟨pmNone, pmNone⟩
    scene := some ⟨Scene.OVERWORLD, Scene.OVERWORLD⟩
    dhc_big_key := some ⟨0, 0⟩
    vaati3_phases := some ⟨0, 0⟩
    sprite := some ⟨⟨0⟩, ⟨0⟩⟩
    frame_count := some ⟨65535, 65535⟩
    uix_position := some ⟨0, 0⟩
    uiy_position := some ⟨0, 0⟩
    link_position_y := some ⟨0, 0⟩
    visual_rupees := some ⟨0, 0⟩
    visual_hearts := some ⟨0, 0⟩
    visual_keys := some ⟨0, 0⟩
    tiger_scrolls := some ⟨0, 0⟩
    mysterious_shells := some ⟨0, 0⟩
    bombs := some ⟨0, 0⟩
    accumulated_frame_count := 0
    delayed_split := none
    run_progress := RunProgress.default }

/-- A tick's reads in which every field succeeds except the bombs read;
the successful frame read wraps to 0 and the pause menu read carries the
Smith's Sword pickup edge. -/
def failingReads : Reads :=
  { pause_menu := some pmSword
    scene := some Scene.OVERWORLD
    dhc_big_key := some 0
    vaati3_phases := some 0
    sprite := some ⟨0⟩
    frame_count := some 0
    uix_position := some 0
    uiy_position := some 0
    link_position_y := some 0
    visual_rupees := some 0
    visual_hearts := some 0
    visual_keys := some 0
    tiger_scrolls := some 0
    mysterious_shells := some 0
    bombs := none }

/-- Sequential early-return evaluation is first-match-wins: if every
block before position `i` falls through and the block at position `i`
produces an outcome, that outcome is the whole evaluation's result. -/
theorem runRules_first_match (rules : List SplitRule) (vars : Vars) (settings : Settings) :
    ∀ (i : Nat) (r : SplitRule) (res : Vars × Option String),
      rules[i]? = some r →
      (∀ r2 ∈ rules.take i, r2 vars settings = none) →
      r vars settings = some res →
      runRules rules vars settings = res := by
  induction rules with
  | nil => intro i r res hget _ _; simp at hget
  | cons head tail ih =>
    intro i r res hget hprev hr
    cases i with
    | zero =>
      simp at hget
      subst hget
      simp [runRules, hr]
    | succ n =>
      simp at hget
      have hhead : head vars settings = none := by
        exact hprev head (by simp [List.take_succ_cons])
      simp only [runRules, hhead]
      exact ih n r res hget
        (fun r2 hr2 => hprev r2 (by simp [List.take_succ_cons, hr2])) hr

/-- Any property that holds of the fall-through outcome and of every
block's produced outcome holds of the evaluation's result. -/
theorem runRules_outcome (P : Vars × Option String → Prop)
    (rules : List SplitRule) (vars : Vars) (settings : Settings)
    (hbase : P (vars, none))
    (hrule : ∀ r ∈ rules, ∀ res, r vars settings = some res → P res) :
    P (runRules rules vars settings) := by
  induction rules with
  | nil => exact hbase
  | cons head tail ih =>
    simp only [runRules]
    cases hhead : head vars settings with
    | none => exact ih (fun r hr res h => hrule r (by simp [hr]) res h)
    | some res => exact hrule head (by simp) res hhead

/-- Each block of `should_split`, applied to a state whose pending
delayed split (if any) does not carry area label `i`, preserves that
side condition, never emits area label `i` while its guard is set, and
flips guard `i` exactly on the tick it emits area label `i`. -/
theorem rules_area_step : ∀ i < 9, ∀ r ∈ splitRules, ∀ (vars : Vars) (settings : Settings)
    (res : Vars × Option String),
    r vars settings = some res →
    dsOkay vars.delayed_split (areaLabel i) = true →
      dsOkay res.1.delayed_split (areaLabel i) = true
      ∧ (areaGuard i vars.run_progress = true →
           areaGuard i res.1.run_progress = true ∧ res.2 ≠ some (areaLabel i))
      ∧ (areaGuard i vars.run_progress = false →
           (res.2 = some (areaLabel i) → areaGuard i res.1.run_progress = true)
           ∧ (res.2 ≠ some (areaLabel i) → areaGuard i res.1.run_progress = false)) := by
  intro i hi
  interval_cases i <;>
    (intro r hr vars settings res hres hds;
     simp only [splitRules, List.mem_cons, List.not_mem_nil, or_false] at hr;
     rcases hr with rfl | rfl | rfl | rfl | rfl | rfl | rfl | rfl | rfl | rfl | rfl | rfl | rfl |
       rfl | rfl | rfl | rfl | rfl | rfl | rfl | rfl | rfl | rfl | rfl | rfl | rfl | rfl | rfl |
       rfl | rfl | rfl <;>
     simp only [delayedSplitRule, getSmithsSwordRule, receiveMinishCapRule,
       enterDeepwoodShrineRule,
       getGustJarRule, enterDeepwoodShrineBossRule, getEarthElementRule, enterMtCrenelRule,
       getGripRingRule, enterCaveOfFlamesRule, getCaneOfPacciRule, enterCaveOfFlamesBossRule,
       getFireElementRule, getPegasusBootsRule, getBowRule, enterFortressOfWindsRule,
       getMoleMittsRule, enterFortressOfWindsBossRule, getOcarinaRule, getMagicalBoomerangRule,
       getPowerBraceletsRule, getFlippersRule, enterTempleOfDropletsRule, getFlameLanternRule,
       getWaterElementRule, enterPalaceOfWindsRule, getRocsCapeRule, getWindElementRule,
       getFourSwordRule, getDhcBigKeyRule, defeatVaatiRule] at hres <;>
     (try split at hres) <;> (try split at hres) <;> (try split at hres) <;>
     (try injection hres with hres) <;> (try subst hres) <;>
     simp_all [dsOkay, areaLabel, areaGuard])

/-- One whole `should_split` evaluation, for each area index: the pending
delayed split stays clear of the area label, a set guard stays set and
blocks the label, and an unset guard becomes set exactly when the label
is emitted. -/
theorem should_split_area_step (i : Nat) (hi : i < 9) (vars : Vars) (settings : Settings)
    (hds : dsOkay vars.delayed_split (areaLabel i) = true) :
    dsOkay (should_split vars settings).1.delayed_split (areaLabel i) = true
    ∧ (areaGuard i vars.run_progress = true →
         areaGuard i (should_split vars settings).1.run_progress = true
         ∧ (should_split vars settings).2 ≠ some (areaLabel i))
    ∧ (areaGuard i vars.run_progress = false →
         ((should_split vars settings).2 = some (areaLabel i) →
            areaGuard i (should_split vars settings).1.run_progress = true)
         ∧ ((should_split vars settings).2 ≠ some (areaLabel i) →
            areaGuard i (should_split vars settings).1.run_progress = false)) := by
  have h := runRules_outcome (fun res =>
      dsOkay res.1.delayed_split (areaLabel i) = true
      ∧ (areaGuard i vars.run_progress = true →
           areaGuard i res.1.run_progress = true ∧ res.2 ≠ some (areaLabel i))
      ∧ (areaGuard i vars.run_progress = false →
           (res.2 = some (areaLabel i) → areaGuard i res.1.run_progress = true)
           ∧ (res.2 ≠ some (areaLabel i) → areaGuard i res.1.run_progress = false)))
    splitRules vars settings
    ⟨hds, fun hg => ⟨hg, by simp⟩, fun hg => ⟨by simp, fun _ => hg⟩⟩
    (fun r hr res hres => rules_area_step i hi r hr vars settings res hres hds)
  exact h

/-- Unfolding one Running tick of a trace. -/
theorem splitTrace_cons (settings : Settings) (acc : Int) (ds : Option (String × Int))
    (rp : RunProgress) (o : Obs) (os : List Obs) :
    splitTrace settings acc ds rp (o :: os) =
      (should_split (mkVars o (frameClockUpdate acc o.frame_count) ds rp) settings).2 ::
        splitTrace settings
          (should_split (mkVars o (frameClockUpdate acc o.frame_count) ds rp) settings).1.accumulated_frame_count
          (should_split (mkVars o (frameClockUpdate acc o.frame_count) ds rp) settings).1.delayed_split
          (should_split (mkVars o (frameClockUpdate acc o.frame_count) ds rp) settings).1.run_progress
          os := by
  rfl

/-- Along any sequence of Running ticks whose starting pending delayed
split does not carry area label `i`, the label is emitted at most once,
and not at all if the guard starts set. -/
theorem splitTrace_area_count : ∀ i < 9, ∀ (settings : Settings) (obs : List Obs)
    (acc : Int) (ds : Option (String × Int)) (rp : RunProgress),
    dsOkay ds (areaLabel i) = true →
    (areaGuard i rp = true →
       (splitTrace settings acc ds rp obs).count (some (areaLabel i)) = 0)
    ∧ (splitTrace settings acc ds rp obs).count (some (areaLabel i)) ≤ 1 := by
  intro i hi settings obs
  induction obs with
  | nil => intro acc ds rp hds; simp [splitTrace]
  | cons o os ih =>
    intro acc ds rp hds
    rw [splitTrace_cons]
    have hds2 : dsOkay (mkVars o (frameClockUpdate acc o.frame_count) ds rp).delayed_split
        (areaLabel i) = true := hds
    have hstep := should_split_area_step i hi
      (mkVars o (frameClockUpdate acc o.frame_count) ds rp) settings hds2
    generalize hR : should_split (mkVars o (frameClockUpdate acc o.frame_count) ds rp) settings
        = R at hstep ⊢
    have hrest := ih R.1.accumulated_frame_count R.1.delayed_split R.1.run_progress hstep.1
    constructor
    · intro hg
      have hg2 : areaGuard i (mkVars o (frameClockUpdate acc o.frame_count) ds rp).run_progress
          = true := hg
      obtain ⟨hguard, hout⟩ := hstep.2.1 hg2
      rw [List.count_cons, hrest.1 hguard]
      simp [hout]
    · rcases hout : R.2 with _ | L
      · rw [List.count_cons]
        have hr2 := hrest.2
        simp
        try omega
      · by_cases hL : L = areaLabel i
        · subst hL
          by_cases hg : areaGuard i
              (mkVars o (frameClockUpdate acc o.frame_count) ds rp).run_progress = true
          · obtain ⟨_, hne⟩ := hstep.2.1 hg
            exact absurd hout hne
          · have hg2 := eq_false_of_ne_true hg
            have hguard := (hstep.2.2 hg2).1 hout
            rw [List.count_cons, hrest.1 hguard]
            simp
        · rw [List.count_cons]
          have hr2 := hrest.2
          simp [hL, Ne.symm hL]
          try omega

/-- Each block of `should_split` either returns no label, or returns the
pending delayed label (only when due), or returns a label of an enabled
immediate milestone. -/
theorem rules_out_cases : ∀ r ∈ splitRules, ∀ (vars : Vars) (settings : Settings)
    (res : Vars × Option String),
    r vars settings = some res →
      res.2 = none
      ∨ (∃ p, vars.delayed_split = some p ∧ p.2 ≤ vars.frameCount ∧ res.2 = some p.1)
      ∨ (∃ l, res.2 = some l ∧ immediateEnabled l settings = true) := by
  intro r hr vars settings res hres
  simp only [splitRules, List.mem_cons, List.not_mem_nil, or_false] at hr
  rcases hr with rfl | rfl | rfl | rfl | rfl | rfl | rfl | rfl | rfl | rfl | rfl | rfl | rfl |
    rfl | rfl | rfl | rfl | rfl | rfl | rfl | rfl | rfl | rfl | rfl | rfl | rfl | rfl | rfl |
    rfl | rfl | rfl <;>
    simp only [delayedSplitRule, getSmithsSwordRule, receiveMinishCapRule,
      enterDeepwoodShrineRule,
      getGustJarRule, enterDeepwoodShrineBossRule, getEarthElementRule, enterMtCrenelRule,
      getGripRingRule, enterCaveOfFlamesRule, getCaneOfPacciRule, enterCaveOfFlamesBossRule,
      getFireElementRule, getPegasusBootsRule, getBowRule, enterFortressOfWindsRule,
      getMoleMittsRule, enterFortressOfWindsBossRule, getOcarinaRule, getMagicalBoomerangRule,
      getPowerBraceletsRule, getFlippersRule, enterTempleOfDropletsRule, getFlameLanternRule,
      getWaterElementRule, enterPalaceOfWindsRule, getRocsCapeRule, getWindElementRule,
      getFourSwordRule, getDhcBigKeyRule, defeatVaatiRule] at hres <;>
    (try split at hres) <;> (try split at hres) <;> (try split at hres) <;>
    (try injection hres with hres) <;> (try subst hres) <;>
    simp_all <;>
    simp_all [immediateEnabled]

/-- Each block of `should_split` returns the label "Get Smith's Sword"
only as a due pending delayed label or from the Smith's Sword block
itself, whose edge condition, unset flag and enabled toggle must all
hold (and which sets the flag). -/
theorem rules_smith_out : ∀ r ∈ splitRules, ∀ (vars : Vars) (settings : Settings)
    (res : Vars × Option String),
    r vars settings = some res →
    res.2 = some "Get Smith\x27s Sword" →
      (∃ p, vars.delayed_split = some p ∧ p.1 = "Get Smith\x27s Sword")
      ∨ (vars.pause_menu.check
           (fun menu => menu.has_item inventory_slot.SMITHS_SWORD InventoryItem.SMITHS_SWORD)
             = true
         ∧ vars.run_progress.smiths_sword = false
         ∧ settings.get_smiths_sword = true
         ∧ res.1.run_progress.smiths_sword = true) := by
  intro r hr vars settings res hres hlab
  simp only [splitRules, List.mem_cons, List.not_mem_nil, or_false] at hr
  rcases hr with rfl | rfl | rfl | rfl | rfl | rfl | rfl | rfl | rfl | rfl | rfl | rfl | rfl |
    rfl | rfl | rfl | rfl | rfl | rfl | rfl | rfl | rfl | rfl | rfl | rfl | rfl | rfl | rfl |
    rfl | rfl | rfl <;>
    simp only [delayedSplitRule, getSmithsSwordRule, receiveMinishCapRule,
      enterDeepwoodShrineRule,
      getGustJarRule, enterDeepwoodShrineBossRule, getEarthElementRule, enterMtCrenelRule,
      getGripRingRule, enterCaveOfFlamesRule, getCaneOfPacciRule, enterCaveOfFlamesBossRule,
      getFireElementRule, getPegasusBootsRule, getBowRule, enterFortressOfWindsRule,
      getMoleMittsRule, enterFortressOfWindsBossRule, getOcarinaRule, getMagicalBoomerangRule,
      getPowerBraceletsRule, getFlippersRule, enterTempleOfDropletsRule, getFlameLanternRule,
      getWaterElementRule, enterPalaceOfWindsRule, getRocsCapeRule, getWindElementRule,
      getFourSwordRule, getDhcBigKeyRule, defeatVaatiRule] at hres <;>
    (try split at hres) <;> (try split at hres) <;> (try split at hres) <;>
    (try injection hres with hres) <;> (try subst hres) <;>
    simp_all

/-- `should_split` returns either no label, the due pending delayed
label, or the label of an enabled immediate milestone. -/
theorem should_split_out_cases (vars : Vars) (settings : Settings) :
    (should_split vars settings).2 = none
    ∨ (∃ p, vars.delayed_split = some p ∧ p.2 ≤ vars.frameCount
         ∧ (should_split vars settings).2 = some p.1)
    ∨ (∃ l, (should_split vars settings).2 = some l ∧ immediateEnabled l settings = true) :=
  runRules_outcome
    (fun res => res.2 = none
      ∨ (∃ p, vars.delayed_split = some p ∧ p.2 ≤ vars.frameCount ∧ res.2 = some p.1)
      ∨ (∃ l, res.2 = some l ∧ immediateEnabled l settings = true))
    splitRules vars settings (Or.inl rfl)
    (fun r hr res hres => rules_out_cases r hr vars settings res hres)

/-- `should_split` returns "Get Smith's Sword" only as a due pending
delayed label or from the Smith's Sword block with its edge condition,
unset flag and enabled toggle. -/
theorem should_split_smith_out (vars : Vars) (settings : Settings) :
    (should_split vars settings).2 = some "Get Smith\x27s Sword" →
      (∃ p, vars.delayed_split = some p ∧ p.1 = "Get Smith\x27s Sword")
      ∨ (vars.pause_menu.check
           (fun menu => menu.has_item inventory_slot.SMITHS_SWORD InventoryItem.SMITHS_SWORD)
             = true
         ∧ vars.run_progress.smiths_sword = false
         ∧ settings.get_smiths_sword = true
         ∧ (should_split vars settings).1.run_progress.smiths_sword = true) :=
  runRules_outcome
    (fun res => res.2 = some "Get Smith\x27s Sword" →
      (∃ p, vars.delayed_split = some p ∧ p.1 = "Get Smith\x27s Sword")
      ∨ (vars.pause_menu.check
           (fun menu => menu.has_item inventory_slot.SMITHS_SWORD InventoryItem.SMITHS_SWORD)
             = true
         ∧ vars.run_progress.smiths_sword = false
         ∧ settings.get_smiths_sword = true
         ∧ res.1.run_progress.smiths_sword = true))
    splitRules vars settings (fun h => absurd h (by simp))
    (fun r hr res hres => rules_smith_out r hr vars settings res hres)

/-- Every toggle-guarded block except the Smith's Sword block falls
through (returns no outcome, mutates nothing) when its toggle is
disabled, so later rules still evaluate that tick. -/
theorem disabled_rule_falls_through : ∀ q ∈ toggledRules, ∀ (vars : Vars) (settings : Settings),
    q.2 settings = false → q.1 vars settings = none := by
  intro q hq vars settings hoff
  simp only [toggledRules, List.mem_cons, List.not_mem_nil, or_false] at hq
  rcases hq with rfl | rfl | rfl | rfl | rfl | rfl | rfl | rfl | rfl | rfl | rfl | rfl | rfl |
    rfl | rfl | rfl | rfl | rfl | rfl | rfl | rfl | rfl | rfl | rfl | rfl | rfl | rfl | rfl |
    rfl <;>
    simp_all [receiveMinishCapRule, enterDeepwoodShrineRule,
      getGustJarRule, enterDeepwoodShrineBossRule, getEarthElementRule, enterMtCrenelRule,
      getGripRingRule, enterCaveOfFlamesRule, getCaneOfPacciRule, enterCaveOfFlamesBossRule,
      getFireElementRule, getPegasusBootsRule, getBowRule, enterFortressOfWindsRule,
      getMoleMittsRule, enterFortressOfWindsBossRule, getOcarinaRule, getMagicalBoomerangRule,
      getPowerBraceletsRule, getFlippersRule, enterTempleOfDropletsRule, getFlameLanternRule,
      getWaterElementRule, enterPalaceOfWindsRule, getRocsCapeRule, getWindElementRule,
      getFourSwordRule, getDhcBigKeyRule, defeatVaatiRule]

/-- C1: On every tick where the timer is Running or Paused, `should_split`
returns at most one split label (its result type allows at most one); the
milestone blocks are evaluated in one fixed top-to-bottom order
(`splitRules`) and the first block that produces an outcome determines
the whole result, short-circuiting all later blocks for that tick, even
when several blocks' conditions hold simultaneously. -/
theorem first_matching_rule_short_circuits (vars : Vars) (settings : Settings)
    (i : Nat) (r : SplitRule) (res : Vars × Option String)
    (hget : splitRules[i]? = some r)
    (hprev : ∀ r2 ∈ splitRules.take i, r2 vars settings = none)
    (hfire : r vars settings = some res) :
    should_split vars settings = res :=
  runRules_first_match splitRules vars settings i r res hget hprev hfire

/-- Witness for C1: on a tick where both the Deepwood Shrine entry
condition and the Gust Jar pickup edge hold, the earlier Deepwood Shrine
block wins and the Gust Jar block is short-circuited. -/
theorem first_matching_rule_short_circuits_witness :
    should_split dualVars Settings.defaults
      = ({ dualVars with
            run_progress := { dualVars.run_progress with deepwood_shrine := true } },
         some "Enter Deepwood Shrine") :=
  first_matching_rule_short_circuits dualVars Settings.defaults 3 enterDeepwoodShrineRule
    ({ dualVars with
        run_progress := { dualVars.run_progress with deepwood_shrine := true } },
     some "Enter Deepwood Shrine")
    rfl (by decide) (by decide)

/-- C2: On a Running or Paused tick, if the narrow 16-bit frame counter
decreased, `accumulated` increases by exactly the previous narrow value
plus one; the logical frame count `accumulated + narrow_current` never
decreases across a tick; and over the narrow readings
`[65534, 65535, 0, 1]` the logical frame count increases by exactly 1
each tick. -/
theorem frame_clock_monotonic :
    (∀ (accumulated : Int) (fc : Pair Nat), fc.current < fc.old →
       frameClockUpdate accumulated fc = accumulated + (fc.old : Int) + 1)
    ∧ (∀ (accumulated : Int) (fc : Pair Nat),
       accumulated + (fc.old : Int) ≤ frameClockUpdate accumulated fc + (fc.current : Int))
    ∧ (∀ (accumulated : Int) (prev : Nat),
       (frameClockTicks accumulated prev [65534, 65535, 0, 1]).getD 1 0
           = (frameClockTicks accumulated prev [65534, 65535, 0, 1]).getD 0 0 + 1
       ∧ (frameClockTicks accumulated prev [65534, 65535, 0, 1]).getD 2 0
           = (frameClockTicks accumulated prev [65534, 65535, 0, 1]).getD 1 0 + 1
       ∧ (frameClockTicks accumulated prev [65534, 65535, 0, 1]).getD 3 0
           = (frameClockTicks accumulated prev [65534, 65535, 0, 1]).getD 2 0 + 1) := by
  refine ⟨?_, ?_, ?_⟩
  · intro accumulated fc h
    simp [frameClockUpdate, h]
  · intro accumulated fc
    simp only [frameClockUpdate]
    split <;> omega
  · intro accumulated prev
    simp only [frameClockTicks, frameClockUpdate]
    norm_num
    split <;> omega

/-- Witness for C2: a wrap tick with previous narrow value 5 and current
narrow value 3 adds exactly 5 + 1 to the accumulator. -/
theorem frame_clock_monotonic_witness :
    frameClockUpdate 0 ⟨5, 3⟩ = 0 + ((5 : Nat) : Int) + 1 :=
  frame_clock_monotonic.1 0 ⟨5, 3⟩ (by decide)

/-- C3: While the timer reports NotRunning, the run-start trigger fires
exactly when the UI cursor X position currently equals 24, the UI cursor
Y position was exactly 144 on the previous tick and is now greater than
144; on that tick `accumulated` is set to the negation of the current
narrow counter (so the logical frame count is exactly 0), every
`RunProgress` flag is reset to false, and the timer is started with game
time paused; on any other NotRunning tick nothing happens. -/
theorem run_start_trigger_spec (vars : Vars) (settings : Settings) :
    ((updateTick TimerState.NotRunning vars settings).2.started = true ↔
       (vars.uix_position.current = 24 ∧ vars.uiy_position.old = 144
        ∧ 144 < vars.uiy_position.current))
    ∧ ((updateTick TimerState.NotRunning vars settings).2.started = true →
         (updateTick TimerState.NotRunning vars settings).1.accumulated_frame_count
             = -(vars.frame_count.current : Int)
         ∧ (updateTick TimerState.NotRunning vars settings).1.frameCount = 0
         ∧ (updateTick TimerState.NotRunning vars settings).1.run_progress = RunProgress.default
         ∧ (updateTick TimerState.NotRunning vars settings).2.pausedGameTime = true)
    ∧ ((updateTick TimerState.NotRunning vars settings).2.started = false →
         updateTick TimerState.NotRunning vars settings = (vars, TickOutput.none)) := by
  simp only [updateTick]
  split
  · rename_i htrig
    simp only [runStartTrigger] at htrig
    simp_all [TickOutput.none, Vars.frameCount]
  · rename_i htrig
    simp only [runStartTrigger] at htrig
    simp_all [TickOutput.none, Vars.frameCount]

/-- Witness for C3: a concrete triggering tick starts the timer with the
logical frame count at 0, all guards cleared and game time paused. -/
theorem run_start_trigger_spec_witness :
    (updateTick TimerState.NotRunning resetVars Settings.defaults).1.frameCount = 0
    ∧ (updateTick TimerState.NotRunning resetVars Settings.defaults).1.run_progress
        = RunProgress.default
    ∧ (updateTick TimerState.NotRunning resetVars Settings.defaults).2.pausedGameTime = true := by
  have h := (run_start_trigger_spec resetVars Settings.defaults).2.1 (by decide)
  exact ⟨h.2.1, h.2.2.1, h.2.2.2⟩

/-- C4: The claim says the run-start trigger clears any pending
DelayedSplit, but the code's NotRunning branch resets only
`accumulated_frame_count` and `run_progress`: at a concrete triggering
tick with a stale pending pair the pair survives the reset, and a later
Running tick of the new run whose logical frame count reaches the stale
due frame emits the stale label. -/
theorem run_start_keeps_pending_delayed_split :
    (updateTick TimerState.NotRunning resetVars Settings.defaults).2.started = true
    ∧ (updateTick TimerState.NotRunning resetVars Settings.defaults).1.delayed_split
        = some ("Get Four Sword", 1000)
    ∧ staleDueVars.frameCount = 1000
    ∧ should_split staleDueVars Settings.defaults
        = ({ staleDueVars with delayed_split := none }, some "Get Four Sword") := by
  decide

/-- C5: For every one of the nine area-entry rules, within a single run
(a sequence of Running ticks with no run-start reset) the rule's label is
emitted at most once — even if the target scene id stays current for many
consecutive ticks or is left and re-entered — and not at all when its
guard is already set; only a run-start reset (which clears the guard)
re-arms it. The starting pending delayed split, if any, is assumed not to
carry the area label (the code only ever arms "Receive Minish Cap" and
"Get Four Sword"). -/
theorem area_entry_fires_at_most_once (i : Nat) (hi : i < 9) (settings : Settings)
    (obs : List Obs) (acc : Int) (ds : Option (String × Int)) (rp : RunProgress)
    (hds : dsOkay ds (areaLabel i) = true) :
    (splitTrace settings acc ds rp obs).count (some (areaLabel i)) ≤ 1
    ∧ (areaGuard i rp = true →
        (splitTrace settings acc ds rp obs).count (some (areaLabel i)) = 0) := by
  have h := splitTrace_area_count i hi settings obs acc ds rp hds
  exact ⟨h.2, h.1⟩

/-- Witness for C5: three consecutive ticks inside Deepwood Shrine emit
"Enter Deepwood Shrine" at most once. -/
theorem area_entry_fires_at_most_once_witness :
    (splitTrace Settings.defaults 0 none RunProgress.default
        [deepwoodObs, deepwoodObs, deepwoodObs]).count (some (areaLabel 0)) ≤ 1
    ∧ (areaGuard 0 RunProgress.default = true →
        (splitTrace Settings.defaults 0 none RunProgress.default
            [deepwoodObs, deepwoodObs, deepwoodObs]).count (some (areaLabel 0)) = 0) :=
  area_entry_fires_at_most_once 0 (by decide) Settings.defaults
    [deepwoodObs, deepwoodObs, deepwoodObs] 0 none RunProgress.default (by decide)

/-- C6: If a DelayedSplit is pending with due frame `D` (carrying one of
the two labels the code ever arms), `should_split` never returns its
label on a tick where the logical frame count is below `D`, and on a
tick where the logical frame count is at least `D` it clears the pending
pair and returns its label immediately, with no other state mutation —
before evaluating any milestone rule. -/
theorem delayed_split_due_semantics (vars : Vars) (settings : Settings)
    (L : String) (D : Int)
    (hpend : vars.delayed_split = some (L, D))
    (hL : L = "Receive Minish Cap" ∨ L = "Get Four Sword") :
    (vars.frameCount < D → (should_split vars settings).2 ≠ some L)
    ∧ (D ≤ vars.frameCount →
        should_split vars settings = ({ vars with delayed_split := none }, some L)) := by
  constructor
  · intro hlt hsome
    rcases should_split_out_cases vars settings with h | ⟨p, hp, hdue, hout⟩ | ⟨l, hout, hen⟩
    · rw [h] at hsome
      exact Option.noConfusion hsome
    · rw [hpend] at hp
      injection hp with hp
      subst hp
      omega
    · rw [hout] at hsome
      injection hsome with hsome
      subst hsome
      rcases hL with rfl | rfl <;> simp [immediateEnabled] at hen
  · intro hdue
    have hrule : delayedSplitRule vars settings
        = some ({ vars with delayed_split := none }, some L) := by
      simp [delayedSplitRule, hpend, hdue]
    exact runRules_first_match splitRules vars settings 0 delayedSplitRule
      ({ vars with delayed_split := none }, some L) rfl (by simp) hrule

/-- Witness for C6: with "Get Four Sword" pending and due at frame 1000
on a tick whose logical frame count is 1000, the label is emitted and
the pending pair cleared. -/
theorem delayed_split_due_semantics_witness :
    (staleDueVars.frameCount < 1000 →
       (should_split staleDueVars Settings.defaults).2 ≠ some "Get Four Sword")
    ∧ (1000 ≤ staleDueVars.frameCount →
        should_split staleDueVars Settings.defaults
          = ({ staleDueVars with delayed_split := none }, some "Get Four Sword")) :=
  delayed_split_due_semantics staleDueVars Settings.defaults "Get Four Sword" 1000
    rfl (Or.inr rfl)

/-- C7: With no pending delayed split, on the Smith's Sword false-to-true
edge: if the `smiths_sword` guard is already set the tick returns no
split and mutates nothing; otherwise the guard is seeded and, with the
toggle enabled, "Get Smith's Sword" is returned on the transition tick;
and on any tick where the flag was already set on the previous read
(so no edge), "Get Smith's Sword" is not returned. -/
theorem smiths_sword_one_shot (vars : Vars) (settings : Settings)
    (hds : vars.delayed_split = none) :
    (vars.pause_menu.check
       (fun menu => menu.has_item inventory_slot.SMITHS_SWORD InventoryItem.SMITHS_SWORD)
         = true →
     vars.run_progress.smiths_sword = true →
     should_split vars settings = (vars, none))
    ∧ (vars.pause_menu.check
         (fun menu => menu.has_item inventory_slot.SMITHS_SWORD InventoryItem.SMITHS_SWORD)
           = true →
       vars.run_progress.smiths_sword = false →
       settings.get_smiths_sword = true →
       should_split vars settings
         = ({ vars with run_progress := { vars.run_progress with smiths_sword := true } },
            some "Get Smith\x27s Sword"))
    ∧ (vars.pause_menu.old.has_item inventory_slot.SMITHS_SWORD InventoryItem.SMITHS_SWORD
           = true →
       (should_split vars settings).2 ≠ some "Get Smith\x27s Sword") := by
  have h0 : delayedSplitRule vars settings = none := by simp [delayedSplitRule, hds]
  refine ⟨?_, ?_, ?_⟩
  · intro hedge hguard
    have h1 : getSmithsSwordRule vars settings = some (vars, none) := by
      simp [getSmithsSwordRule, hedge, hguard]
    exact runRules_first_match splitRules vars settings 1 getSmithsSwordRule (vars, none) rfl
      (by intro r2 hr2
          simp only [splitRules, List.take, List.mem_singleton, List.mem_cons,
            List.not_mem_nil, or_false] at hr2
          subst hr2
          exact h0) h1
  · intro hedge hguard hen
    have h1 : getSmithsSwordRule vars settings
        = some ({ vars with run_progress := { vars.run_progress with smiths_sword := true } },
                some "Get Smith\x27s Sword") := by
      simp [getSmithsSwordRule, hedge, hguard, hen]
    exact runRules_first_match splitRules vars settings 1 getSmithsSwordRule
      ({ vars with run_progress := { vars.run_progress with smiths_sword := true } },
       some "Get Smith\x27s Sword") rfl
      (by intro r2 hr2
          simp only [splitRules, List.take, List.mem_singleton, List.mem_cons,
            List.not_mem_nil, or_false] at hr2
          subst hr2
          exact h0) h1
  · intro hold hsome
    rcases should_split_smith_out vars settings hsome with ⟨p, hp, _⟩ | ⟨hcheck, _⟩
    · rw [hds] at hp
      exact Option.noConfusion hp
    · simp [Pair.check, hold] at hcheck

/-- Witness for C7: on the concrete sword-edge tick with a fresh run the
split fires and seeds the guard. -/
theorem smiths_sword_one_shot_witness :
    should_split swordEdgeVars Settings.defaults
      = ({ swordEdgeVars with
            run_progress := { swordEdgeVars.run_progress with smiths_sword := true } },
         some "Get Smith\x27s Sword") :=
  (smiths_sword_one_shot swordEdgeVars Settings.defaults rfl).2.1 (by decide) rfl rfl

/-- C8 counterexample: with the Smith's Sword toggle disabled, on a tick
where its edge fires while the enabled Deepwood Shrine entry condition
also holds (its block would fire), `should_split` returns no label at
all — the claim that other enabled milestones still evaluate and fire
normally that same tick is false. -/
theorem disabled_smiths_sword_blocks_tick :
    ({ Settings.defaults with get_smiths_sword := false }).enter_deepwood_shrine = true
    ∧ swordEdgeDeepwoodVars.run_progress.deepwood_shrine = false
    ∧ swordEdgeDeepwoodVars.scene.current = Scene.DEEPWOOD_SHRINE
    ∧ enterDeepwoodShrineRule swordEdgeDeepwoodVars
        { Settings.defaults with get_smiths_sword := false }
        = some ({ swordEdgeDeepwoodVars with
                   run_progress :=
                     { swordEdgeDeepwoodVars.run_progress with deepwood_shrine := true } },
               some "Enter Deepwood Shrine")
    ∧ should_split swordEdgeDeepwoodVars { Settings.defaults with get_smiths_sword := false }
        = ({ swordEdgeDeepwoodVars with
              run_progress :=
                { swordEdgeDeepwoodVars.run_progress with smiths_sword := true } },
           none) := by
  decide

/-- C8 amended: a label that is neither pending as a delayed split nor an
enabled immediate milestone is never returned, so a disabled milestone's
label is never emitted; every toggle-guarded block other than Smith's
Sword falls through when its toggle is disabled, leaving later enabled
blocks to evaluate and fire normally that tick; the Smith's Sword block,
however, short-circuits the whole tick on its edge even when disabled,
seeding its guard and returning no label. -/
theorem disabled_milestone_semantics (vars : Vars) (settings : Settings) :
    (∀ l, dsOkay vars.delayed_split l = true → immediateEnabled l settings = false →
       (should_split vars settings).2 ≠ some l)
    ∧ (∀ q ∈ toggledRules, q.2 settings = false → q.1 vars settings = none)
    ∧ (vars.pause_menu.check
         (fun menu => menu.has_item inventory_slot.SMITHS_SWORD InventoryItem.SMITHS_SWORD)
           = true →
       vars.run_progress.smiths_sword = false →
       settings.get_smiths_sword = false →
       vars.delayed_split = none →
       should_split vars settings
         = ({ vars with run_progress := { vars.run_progress with smiths_sword := true } },
            none)) := by
  refine ⟨?_, ?_, ?_⟩
  · intro l hok hoff hsome
    rcases should_split_out_cases vars settings with h | ⟨p, hp, hdue, hout⟩ | ⟨l2, hout, hen⟩
    · rw [h] at hsome
      exact Option.noConfusion hsome
    · rw [hout] at hsome
      injection hsome with h2
      rw [hp] at hok
      simp only [dsOkay, bne_iff_ne, ne_eq] at hok
      exact hok h2
    · rw [hout] at hsome
      injection hsome with h2
      subst h2
      rw [hoff] at hen
      exact Bool.noConfusion hen
  · exact fun q hq hoff => disabled_rule_falls_through q hq vars settings hoff
  · intro hedge hguard hoff hdsn
    have h0 : delayedSplitRule vars settings = none := by simp [delayedSplitRule, hdsn]
    have h1 : getSmithsSwordRule vars settings
        = some ({ vars with run_progress := { vars.run_progress with smiths_sword := true } },
                none) := by
      simp [getSmithsSwordRule, hedge, hguard, hoff]
    exact runRules_first_match splitRules vars settings 1 getSmithsSwordRule
      ({ vars with run_progress := { vars.run_progress with smiths_sword := true } }, none) rfl
      (by intro r2 hr2
          simp only [splitRules, List.take, List.mem_singleton, List.mem_cons,
            List.not_mem_nil, or_false] at hr2
          subst hr2
          exact h0) h1

/-- Witness for C8: with the Gust Jar toggle disabled, its label is not
returned on the neutral tick. -/
theorem disabled_milestone_semantics_witness :
    (should_split sampleVars { Settings.defaults with get_gust_jar := false }).2
      ≠ some "Get Gust Jar" :=
  (disabled_milestone_semantics sampleVars
    { Settings.defaults with get_gust_jar := false }).1 "Get Gust Jar" rfl rfl

/-- C9 counterexample: at a concrete tick where only the bombs read
fails, every other watcher still updates (the pause menu shows the sword
edge, the frame watcher shows a wrap), yet `update_vars` yields no
`Vars` and the whole tick's dependent logic is skipped: no timer
variables are reported, the frame clock accumulator is not advanced and
no split is evaluated — the claim that the other fields' dependent
per-tick logic still proceeds is false. -/
theorem failed_read_skips_tick :
    failingReads.bombs = none
    ∧ (Game.update_vars sampleGame failingReads).1.pause_menu = some ⟨pmNone, pmSword⟩
    ∧ (Game.update_vars sampleGame failingReads).1.frame_count = some ⟨65535, 0⟩
    ∧ (Game.update_vars sampleGame failingReads).2 = none
    ∧ tick TimerState.Running sampleGame failingReads Settings.defaults
        = ((Game.update_vars sampleGame failingReads).1, TickOutput.none)
    ∧ (tick TimerState.Running sampleGame failingReads Settings.defaults).1.accumulated_frame_count
        = 0 := by
  decide

/-- C9 amended: when `update_vars` yields no `Vars` the tick makes no
timer call at all (only the watchers that already updated keep their
fresh values); the first watcher in the fixed order always updates; and
a failed read of any one of the fifteen tracked fields makes
`update_vars` yield no `Vars`, so the whole tick's dependent logic —
variable reporting, frame clock, milestone evaluation — is skipped, not
just the failing field's. -/
theorem failed_read_tick_semantics (ts : TimerState) (game : Game) (reads : Reads)
    (settings : Settings) :
    ((game.update_vars reads).2 = none →
       tick ts game reads settings = ((game.update_vars reads).1, TickOutput.none))
    ∧ (game.update_vars reads).1.pause_menu = (watcherStep game.pause_menu reads.pause_menu).1
    ∧ (reads.pause_menu = none ∨ reads.scene = none ∨ reads.dhc_big_key = none
       ∨ reads.vaati3_phases = none ∨ reads.sprite = none ∨ reads.frame_count = none
       ∨ reads.uix_position = none ∨ reads.uiy_position = none ∨ reads.link_position_y = none
       ∨ reads.visual_rupees = none ∨ reads.visual_hearts = none ∨ reads.visual_keys = none
       ∨ reads.tiger_scrolls = none ∨ reads.mysterious_shells = none ∨ reads.bombs = none →
       (game.update_vars reads).2 = none) := by
  refine ⟨?_, ?_, ?_⟩
  · intro h
    unfold tick
    rcases hv : game.update_vars reads with ⟨g2, ov⟩
    rw [hv] at h
    simp only at h
    subst h
    rfl
  · simp only [Game.update_vars]
    repeat' split
    all_goals rfl
  · intro h
    rcases h with h | h | h | h | h | h | h | h | h | h | h | h | h | h | h <;>
      (simp only [Game.update_vars, h]
       repeat' split
       all_goals first | rfl | simp_all [watcherStep])

/-- Witness for C9: the concrete failing tick makes no timer call. -/
theorem failed_read_tick_semantics_witness :
    tick TimerState.Running sampleGame failingReads Settings.defaults
      = ((Game.update_vars sampleGame failingReads).1, TickOutput.none) :=
  (failed_read_tick_semantics TimerState.Running sampleGame failingReads
    Settings.defaults).1 (by decide)

/-- C10: If a DelayedSplit is pending and not yet due when a delayed-rule
trigger fires — the Receive Minish Cap sprite edge in the Minish Woods
scene (with the earlier Smith's Sword block not firing), or the Four
Sword inventory edge (with every earlier block falling through) — the
pending pair is overwritten by the new (label, due frame) pair and the
tick returns no label, so the previously pending label is gone from the
state and is never returned by `should_split`. -/
theorem delayed_split_overwrite (vars : Vars) (settings : Settings) (L : String) (D : Int)
    (hpend : vars.delayed_split = some (L, D))
    (hnotdue : vars.frameCount < D) :
    (vars.sprite.check (fun sprite => sprite == Sprite.RECEIVE_MINISH_CAP) = true →
     vars.scene.current = Scene.MINISH_WOODS →
     settings.receive_minish_cap = true →
     vars.pause_menu.check
       (fun menu => menu.has_item inventory_slot.SMITHS_SWORD InventoryItem.SMITHS_SWORD)
         = false →
     should_split vars settings
       = ({ vars with delayed_split := some ("Receive Minish Cap", vars.frameCount + 20) },
          none))
    ∧ ((∀ r ∈ splitRules.take 28, r vars settings = none) →
       vars.pause_menu.check
         (fun menu => menu.has_item inventory_slot.FOUR_SWORD InventoryItem.FOUR_SWORD)
           = true →
       settings.get_four_sword = true →
       should_split vars settings
         = ({ vars with delayed_split := some ("Get Four Sword", vars.frameCount + 244) },
            none)) := by
  have h0 : delayedSplitRule vars settings = none := by
    simp only [delayedSplitRule, hpend]
    rw [if_neg (by omega)]
  constructor
  · intro hsprite hscene hen hsm
    have h1 : getSmithsSwordRule vars settings = none := by
      simp [getSmithsSwordRule, hsm]
    have h2 : receiveMinishCapRule vars settings
        = some ({ vars with
                   delayed_split := some ("Receive Minish Cap", vars.frameCount + 20) },
               none) := by
      simp [receiveMinishCapRule, hsprite, hscene, hen]
    exact runRules_first_match splitRules vars settings 2 receiveMinishCapRule
      ({ vars with delayed_split := some ("Receive Minish Cap", vars.frameCount + 20) }, none)
      rfl
      (by intro r2 hr2
          simp only [splitRules, List.take, List.mem_singleton, List.mem_cons,
            List.not_mem_nil, or_false] at hr2
          rcases hr2 with rfl | rfl
          · exact h0
          · exact h1) h2
  · intro hprev hedge hen
    have h28 : getFourSwordRule vars settings
        = some ({ vars with delayed_split := some ("Get Four Sword", vars.frameCount + 244) },
               none) := by
      simp [getFourSwordRule, hedge, hen]
    exact runRules_first_match splitRules vars settings 28 getFourSwordRule
      ({ vars with delayed_split := some ("Get Four Sword", vars.frameCount + 244) }, none)
      rfl hprev h28

/-- Witness for C10: on the concrete Four Sword edge tick with
"Receive Minish Cap" pending and not due, the pending pair is replaced
and no label is returned. -/
theorem delayed_split_overwrite_witness :
    should_split fourSwordEdgeVars Settings.defaults
      = ({ fourSwordEdgeVars with
            delayed_split := some ("Get Four Sword", fourSwordEdgeVars.frameCount + 244) },
         none) :=
  (delayed_split_overwrite fourSwordEdgeVars Settings.defaults "Receive Minish Cap" 500
    rfl (by decide)).2 (by decide) (by decide) rfl
